import Mathlib

/-!
Shallow embedding of `SU2_CFD/src/output/output_elasticity.cpp`
(class `CElasticityOutput`): the FEA reporting subsystem of SU2.

The embedding models the analysis configuration, the constructor, the
history/volume field catalogs, the per-iteration / per-point data loaders,
and the write-gate decision functions, each translated directly from the
corresponding C++ member function.  Scalar solver quantities are modelled
as rationals; the `log10` transform applied to residuals is kept symbolic
(a constructor of `HistoryValue`), so that "the stored value is the base-10
logarithm of the upstream accessor, with no guard" is a provable syntactic
fact independent of floating-point semantics.
-/

namespace SU2Elasticity

/-- Enumeration value `SMALL_DEFORMATIONS` of `GetGeometricConditions`.
Only distinctness from `LARGE_DEFORMATIONS` is relied upon. -/
def SMALL_DEFORMATIONS : Nat := 1

/-- Enumeration value `LARGE_DEFORMATIONS` of `GetGeometricConditions`. -/
def LARGE_DEFORMATIONS : Nat := 2

/-- Enumeration value `DYNAMIC` of `GetDynamic_Analysis`. -/
def DYNAMIC : Nat := 1

/-- Enumeration value `STATIC` of `GetDynamic_Analysis`. -/
def STATIC : Nat := 0

/-- The configuration accessors of `CConfig` that `output_elasticity.cpp`
consults.  Each field is named after the C++ getter it models. -/
structure CConfig where
  GetGeometricConditions : Nat
  GetTime_Domain : Bool
  GetDynamic_Analysis : Nat
  GetMultizone_Problem : Bool
  GetWrt_ZoneConv : Bool
  GetIntIter : Nat
  GetExtIter : Nat
  GetWrt_Con_Freq : Nat
  GetiZone : Nat
  GetVolume_FileName : String
  GetSurfCoeff_FileName : String
  GetRestart_FileName : String
deriving Repr, DecidableEq

/-- Modelled from the spec: the base-class constructor `COutput(config)` is
not under `src/`; per the spec it parses the requested-field lists and the
convergence field from the configuration and records the multizone flag of
the `AnalysisConfig`.  This structure carries the inherited members as they
stand when the `CElasticityOutput` constructor body begins. -/
structure COutputState where
  RequestedHistoryFields : List String
  RequestedScreenFields : List String
  RequestedVolumeFields : List String
  Conv_Field : String
  multizone : Bool
deriving Repr, DecidableEq

/-- The state of a `CElasticityOutput` object after construction: the mode
flags, the spatial dimension, and the members assigned by the constructor. -/
structure CElasticityOutput where
  linear_analysis : Bool
  nonlinear_analysis : Bool
  dynamic : Bool
  nDim : Nat
  nVar_FEM : Option Nat
  RequestedHistoryFields : List String
  RequestedScreenFields : List String
  RequestedVolumeFields : List String
  MultiZoneHeaderString : String
  VolumeFilename : String
  SurfaceFilename : String
  RestartFilename : String
  Conv_Field : String
  multizone : Bool
deriving Repr, DecidableEq

/-- The constructor `CElasticityOutput::CElasticityOutput(config, geometry,
val_iZone)`, translated line by line.  `geometry_nDim` is
`geometry->GetnDim()`; `base` is the inherited `COutput` state.  `nVar_FEM`
is `none` when neither assignment executes (the member is left
uninitialized in the C++). -/
def CElasticityOutput.init (config : CConfig) (geometry_nDim : Nat)
    (base : COutputState) : CElasticityOutput :=
  let linear_analysis := config.GetGeometricConditions == SMALL_DEFORMATIONS
  let nonlinear_analysis := config.GetGeometricConditions == LARGE_DEFORMATIONS
  let dynamic := config.GetTime_Domain || (config.GetDynamic_Analysis == DYNAMIC)
  let nDim := geometry_nDim
  let nVar0 : Option Nat := none
  let nVar1 := if linear_analysis then some nDim else nVar0
  let nVar_FEM := if nonlinear_analysis then some 3 else nVar1
  let histFields :=
    if base.RequestedHistoryFields.length = 0 then ["ITER", "RMS_RES"]
    else base.RequestedHistoryFields
  let screenFields :=
    if base.RequestedScreenFields.length = 0 then
      (if dynamic then ["TIME_ITER"] else []) ++
      (if base.multizone then ["OUTER_ITER"] else []) ++
      ["INNER_ITER"] ++
      (if linear_analysis then ["RMS_DISP_X", "RMS_DISP_Y", "RMS_DISP_Z"] else []) ++
      (if nonlinear_analysis then ["RMS_UTOL", "RMS_RTOL", "RMS_ETOL"] else []) ++
      ["VMS"]
    else base.RequestedScreenFields
  let volumeFields :=
    if base.RequestedVolumeFields.length = 0 then ["COORDINATES", "SOLUTION", "STRESS"]
    else base.RequestedVolumeFields
  { linear_analysis := linear_analysis
    nonlinear_analysis := nonlinear_analysis
    dynamic := dynamic
    nDim := nDim
    nVar_FEM := nVar_FEM
    RequestedHistoryFields := histFields
    RequestedScreenFields := screenFields
    RequestedVolumeFields := volumeFields
    MultiZoneHeaderString := "Zone " ++ toString config.GetiZone ++ " (Structure)"
    VolumeFilename := config.GetVolume_FileName
    SurfaceFilename := config.GetSurfCoeff_FileName
    RestartFilename := config.GetRestart_FileName
    Conv_Field := if base.Conv_Field.length = 0 then "RMS_DISP_X" else base.Conv_Field
    multizone := base.multizone }

/-- The screen-format enumeration used by `AddHistoryOutput`. -/
inductive ScreenOutputFormat
  | FORMAT_INTEGER
  | FORMAT_FIXED
  | FORMAT_SCIENTIFIC
deriving Repr, DecidableEq

/-- The field-type enumeration of `AddHistoryOutput`; `TYPE_DEFAULT` is the
value taken when the C++ call omits the argument. -/
inductive HistoryFieldType
  | TYPE_DEFAULT
  | TYPE_RESIDUAL
deriving Repr, DecidableEq

/-- A history-catalog entry: the tuple registered by one
`AddHistoryOutput(name, headerName, format, groupName, fieldType)` call. -/
structure HistoryOutputField where
  name : String
  headerName : String
  format : ScreenOutputFormat
  groupName : String
  fieldType : HistoryFieldType
deriving Repr, DecidableEq

/-- One `AddHistoryOutput` registration. -/
def AddHistoryOutput (name headerName : String) (format : ScreenOutputFormat)
    (groupName : String) (fieldType : HistoryFieldType) : HistoryOutputField :=
  ⟨name, headerName, format, groupName, fieldType⟩

/-- `CElasticityOutput::SetHistoryOutputFields`: the ordered history catalog.
Every registration in the C++ body is unconditional, so the catalog does not
depend on the object state or the configuration. -/
def SetHistoryOutputFields (o : CElasticityOutput) (config : CConfig) :
    List HistoryOutputField :=
  [AddHistoryOutput "TIME_ITER" "Time_Iter" .FORMAT_INTEGER "ITER" .TYPE_DEFAULT,
   AddHistoryOutput "OUTER_ITER" "Outer_Iter" .FORMAT_INTEGER "ITER" .TYPE_DEFAULT,
   AddHistoryOutput "INNER_ITER" "Inner_Iter" .FORMAT_INTEGER "ITER" .TYPE_DEFAULT,
   AddHistoryOutput "PHYS_TIME" "Time(min)" .FORMAT_SCIENTIFIC "PHYS_TIME" .TYPE_DEFAULT,
   AddHistoryOutput "LINSOL_ITER" "Linear_Solver_Iterations" .FORMAT_INTEGER "LINSOL_ITER" .TYPE_DEFAULT,
   AddHistoryOutput "RMS_UTOL" "rms[U]" .FORMAT_FIXED "RMS_RES" .TYPE_RESIDUAL,
   AddHistoryOutput "RMS_RTOL" "rms[R]" .FORMAT_FIXED "RMS_RES" .TYPE_RESIDUAL,
   AddHistoryOutput "RMS_ETOL" "rms[E]" .FORMAT_FIXED "RMS_RES" .TYPE_RESIDUAL,
   AddHistoryOutput "RMS_DISP_X" "rms[DispX]" .FORMAT_FIXED "RMS_RES" .TYPE_RESIDUAL,
   AddHistoryOutput "RMS_DISP_Y" "rms[DispY]" .FORMAT_FIXED "RMS_RES" .TYPE_RESIDUAL,
   AddHistoryOutput "RMS_DISP_Z" "rms[DispZ]" .FORMAT_FIXED "RMS_RES" .TYPE_RESIDUAL,
   AddHistoryOutput "BGS_DISP_X" "bgs[DispX]" .FORMAT_FIXED "BGS_RES" .TYPE_RESIDUAL,
   AddHistoryOutput "BGS_DISP_Y" "bgs[DispY]" .FORMAT_FIXED "BGS_RES" .TYPE_RESIDUAL,
   AddHistoryOutput "BGS_DISP_Z" "bgs[DispZ]" .FORMAT_FIXED "BGS_RES" .TYPE_RESIDUAL,
   AddHistoryOutput "VMS" "VonMises" .FORMAT_SCIENTIFIC "VMS" .TYPE_DEFAULT,
   AddHistoryOutput "LOAD_INCREMENT" "Load_Increment" .FORMAT_FIXED "LOAD_INCREMENT" .TYPE_DEFAULT,
   AddHistoryOutput "LOAD_RAMP" "Load_Ramp" .FORMAT_FIXED "LOAD_RAMP" .TYPE_DEFAULT]

/-- A volume-catalog entry: one `AddVolumeOutput(name, headerName, groupName)`
registration. -/
structure VolumeOutputField where
  name : String
  headerName : String
  groupName : String
deriving Repr, DecidableEq

/-- One `AddVolumeOutput` registration. -/
def AddVolumeOutput (name headerName groupName : String) : VolumeOutputField :=
  ⟨name, headerName, groupName⟩

/-- `CElasticityOutput::SetVolumeOutputFields`: the ordered volume catalog.
Z-axis entries are guarded by `nDim == 3`; velocity and acceleration entries
are registered unconditionally (the C++ has no `dynamic` guard here). -/
def SetVolumeOutputFields (o : CElasticityOutput) (config : CConfig) :
    List VolumeOutputField :=
  [AddVolumeOutput "COORD-X" "x" "COORDINATES",
   AddVolumeOutput "COORD-Y" "y" "COORDINATES"] ++
  (if o.nDim = 3 then [AddVolumeOutput "COORD-Z" "z" "COORDINATES"] else []) ++
  [AddVolumeOutput "DISPLACEMENT-X" "Displacement_x" "SOLUTION",
   AddVolumeOutput "DISPLACEMENT-Y" "Displacement_y" "SOLUTION"] ++
  (if o.nDim = 3 then [AddVolumeOutput "DISPLACEMENT-Z" "Displacement_z" "SOLUTION"] else []) ++
  [AddVolumeOutput "VELOCITY-X" "Velocity_x" "VELOCITY",
   AddVolumeOutput "VELOCITY-Y" "Velocity_y" "VELOCITY"] ++
  (if o.nDim = 3 then [AddVolumeOutput "VELOCITY-Z" "Velocity_z" "VELOCITY"] else []) ++
  [AddVolumeOutput "ACCELERATION-X" "Acceleration_x" "ACCELERATION",
   AddVolumeOutput "ACCELERATION-Y" "Acceleration_y" "ACCELERATION"] ++
  (if o.nDim = 3 then [AddVolumeOutput "ACCELERATION-Z" "Acceleration_z" "ACCELERATION"] else []) ++
  [AddVolumeOutput "STRESS-XX" "Sxx" "STRESS",
   AddVolumeOutput "STRESS-YY" "Syy" "STRESS",
   AddVolumeOutput "STRESS-XY" "Sxy" "STRESS"] ++
  (if o.nDim = 3 then
     [AddVolumeOutput "STRESS-ZZ" "Szz" "STRESS",
      AddVolumeOutput "STRESS-XZ" "Sxz" "STRESS",
      AddVolumeOutput "STRESS-YZ" "Syz" "STRESS"]
   else []) ++
  [AddVolumeOutput "VON_MISES_STRESS" "Von_Mises_Stress" "STRESS"]

/-- A scalar written into the history record.  `log10 x` keeps the base-10
logarithm of the upstream value `x` symbolic, so that the transform applied
by the loader is visible in the stored value itself (the C++ stores
`log10(value)` as a floating-point number with no guard). -/
inductive HistoryValue
  | intVal (n : Nat)
  | log10 (x : ℚ)
  | rawVal (x : ℚ)
deriving Repr, DecidableEq

/-- The residual and summary accessors of the FEA solver
(`solver[FEA_SOL]`) consulted by `LoadHistoryData`. -/
structure CSolverFEA where
  GetRes_RMS : Nat → ℚ
  GetRes_FEM : Nat → ℚ
  GetRes_BGS : Nat → ℚ
  GetTotal_CFEA : ℚ
  GetLoad_Increment : ℚ
  GetForceCoeff : ℚ

/-- The iteration counters of the enclosing `COutput` object
(`curr_TimeIter`, `curr_InnerIter`, `curr_OuterIter`). -/
structure IterCounters where
  curr_TimeIter : Nat
  curr_InnerIter : Nat
  curr_OuterIter : Nat
deriving Repr, DecidableEq

/-- `CElasticityOutput::LoadHistoryData`: the ordered sequence of
`SetHistoryOutputValue(name, value)` calls the body performs, as
(name, value) pairs. -/
def LoadHistoryData (o : CElasticityOutput) (it : IterCounters)
    (fea_solver : CSolverFEA) : List (String × HistoryValue) :=
  [("TIME_ITER", .intVal it.curr_TimeIter),
   ("INNER_ITER", .intVal it.curr_InnerIter),
   ("OUTER_ITER", .intVal it.curr_OuterIter)] ++
  (if o.linear_analysis then
     [("RMS_DISP_X", .log10 (fea_solver.GetRes_RMS 0)),
      ("RMS_DISP_Y", .log10 (fea_solver.GetRes_RMS 1))] ++
     (if o.nDim = 3 then [("RMS_DISP_Z", .log10 (fea_solver.GetRes_RMS 2))] else [])
   else if o.nonlinear_analysis then
     [("RMS_UTOL", .log10 (fea_solver.GetRes_FEM 0)),
      ("RMS_RTOL", .log10 (fea_solver.GetRes_FEM 1))] ++
     (if o.nDim = 3 then [("RMS_ETOL", .log10 (fea_solver.GetRes_FEM 2))] else [])
   else []) ++
  (if o.multizone then
     [("BGS_DISP_X", .log10 (fea_solver.GetRes_BGS 0)),
      ("BGS_DISP_Y", .log10 (fea_solver.GetRes_BGS 1))] ++
     (if o.nDim = 3 then [("BGS_DISP_Z", .log10 (fea_solver.GetRes_BGS 2))] else [])
   else []) ++
  [("VMS", .rawVal fea_solver.GetTotal_CFEA),
   ("LOAD_INCREMENT", .rawVal fea_solver.GetLoad_Increment),
   ("LOAD_RAMP", .rawVal fea_solver.GetForceCoeff)]

/-- The per-point geometry accessor (`geometry->node[iPoint]`). -/
structure CPointGeo where
  GetCoord : Nat → ℚ

/-- The per-point structural solution accessors
(`solver[FEA_SOL]->node[iPoint]`). -/
structure CVariableStruc where
  GetSolution : Nat → ℚ
  GetSolution_Vel : Nat → ℚ
  GetSolution_Accel : Nat → ℚ
  GetStress_FEM : Nat → ℚ
  GetVonMises_Stress : ℚ

/-- `CElasticityOutput::LoadVolumeData`: the ordered sequence of
`SetVolumeOutputValue(name, iPoint, value)` calls the body performs, as
(name, iPoint, value) triples. -/
def LoadVolumeData (o : CElasticityOutput) (Node_Struc : CVariableStruc)
    (Node_Geo : CPointGeo) (iPoint : Nat) : List (String × Nat × ℚ) :=
  [("COORD-X", iPoint, Node_Geo.GetCoord 0),
   ("COORD-Y", iPoint, Node_Geo.GetCoord 1)] ++
  (if o.nDim = 3 then [("COORD-Z", iPoint, Node_Geo.GetCoord 2)] else []) ++
  [("DISPLACEMENT-X", iPoint, Node_Struc.GetSolution 0),
   ("DISPLACEMENT-Y", iPoint, Node_Struc.GetSolution 1)] ++
  (if o.nDim = 3 then [("DISPLACEMENT-Z", iPoint, Node_Struc.GetSolution 2)] else []) ++
  (if o.dynamic then
     [("VELOCITY-X", iPoint, Node_Struc.GetSolution_Vel 0),
      ("VELOCITY-Y", iPoint, Node_Struc.GetSolution_Vel 1)] ++
     (if o.nDim = 3 then [("VELOCITY-Z", iPoint, Node_Struc.GetSolution_Vel 2)] else []) ++
     [("ACCELERATION-X", iPoint, Node_Struc.GetSolution_Accel 0),
      ("ACCELERATION-Y", iPoint, Node_Struc.GetSolution_Accel 1)] ++
     (if o.nDim = 3 then [("ACCELERATION-Z", iPoint, Node_Struc.GetSolution_Accel 2)] else [])
   else []) ++
  [("STRESS-XX", iPoint, Node_Struc.GetStress_FEM 0),
   ("STRESS-YY", iPoint, Node_Struc.GetStress_FEM 1),
   ("STRESS-XY", iPoint, Node_Struc.GetStress_FEM 2)] ++
  (if o.nDim = 3 then
     [("STRESS-ZZ", iPoint, Node_Struc.GetStress_FEM 3),
      ("STRESS-XZ", iPoint, Node_Struc.GetStress_FEM 4),
      ("STRESS-YZ", iPoint, Node_Struc.GetStress_FEM 5)]
   else []) ++
  [("VON_MISES_STRESS", iPoint, Node_Struc.GetVonMises_Stress)]

/-- `CElasticityOutput::WriteHistoryFile_Output`: unconditionally true. -/
def WriteHistoryFile_Output (o : CElasticityOutput) (config : CConfig) : Bool :=
  true

/-- `CElasticityOutput::WriteScreen_Header`. -/
def WriteScreen_Header (o : CElasticityOutput) (config : CConfig) : Bool :=
  let write_header :=
    if o.nonlinear_analysis then config.GetIntIter == 0
    else (config.GetExtIter % (config.GetWrt_Con_Freq * 40)) == 0
  let write_header :=
    if config.GetMultizone_Problem then write_header && config.GetWrt_ZoneConv
    else write_header
  write_header

/-- `CElasticityOutput::WriteScreen_Output`. -/
def WriteScreen_Output (o : CElasticityOutput) (config : CConfig) : Bool :=
  let write_output := true
  let write_output :=
    if config.GetMultizone_Problem then write_output && config.GetWrt_ZoneConv
    else write_output
  write_output

/-- The FieldIds of the history catalog, in registration order. -/
def historyCatalogNames (o : CElasticityOutput) (config : CConfig) : List String :=
  (SetHistoryOutputFields o config).map (fun f => f.name)

/-- The FieldIds of the volume catalog, in registration order. -/
def volumeCatalogNames (o : CElasticityOutput) (config : CConfig) : List String :=
  (SetVolumeOutputFields o config).map (fun f => f.name)

/-- The FieldIds written by one `LoadHistoryData` call, in write order. -/
def historyWrittenNames (o : CElasticityOutput) (it : IterCounters)
    (fea_solver : CSolverFEA) : List String :=
  (LoadHistoryData o it fea_solver).map (fun e => e.1)

/-- The FieldIds written by one `LoadVolumeData` call, in write order. -/
def volumeWrittenNames (o : CElasticityOutput) (Node_Struc : CVariableStruc)
    (Node_Geo : CPointGeo) (iPoint : Nat) : List String :=
  (LoadVolumeData o Node_Struc Node_Geo iPoint).map (fun e => e.1)

/-- Follows the spec's words (§4.4, shouldEmitHeader): if nonlinear
analysis, true iff the inner iteration counter equals 0; otherwise true iff
extIter mod (writeFrequency * 40) == 0; if multizone, the result is AND-ed
with the write-zone-convergence opt-in flag. -/
def shouldEmitHeaderSpec (nonlinear multizone optIn : Bool)
    (innerIter extIter writeFrequency : Nat) : Bool :=
  let base :=
    if nonlinear then innerIter == 0
    else (extIter % (writeFrequency * 40)) == 0
  if multizone then base && optIn else base

/-- Default inherited `COutput` state of a single-zone run: no requested
fields, no convergence field configured. -/
def baseDefaults : COutputState :=
  ⟨[], [], [], "", false⟩

/-- Default inherited `COutput` state of a multizone run. -/
def baseDefaultsMZ : COutputState :=
  ⟨[], [], [], "", true⟩

/-- A linear (small-deformations), static, single-zone configuration. -/
def cfgLinear2D : CConfig :=
  ⟨SMALL_DEFORMATIONS, false, STATIC, false, false, 0, 1, 1, 0, "vol", "surf", "restart"⟩

/-- A nonlinear (large-deformations), static, single-zone configuration. -/
def cfgLarge2D : CConfig :=
  ⟨LARGE_DEFORMATIONS, false, STATIC, false, false, 0, 1, 1, 0, "vol", "surf", "restart"⟩

/-- A multizone configuration with the write-zone-convergence opt-in left
at its default (false). -/
def cfgMultizoneNoOptIn : CConfig :=
  ⟨SMALL_DEFORMATIONS, false, STATIC, true, false, 0, 1, 1, 0, "vol", "surf", "restart"⟩

/-- A configuration whose geometry mode is neither `SMALL_DEFORMATIONS`
nor `LARGE_DEFORMATIONS`. -/
def cfgBadMode : CConfig :=
  ⟨0, false, STATIC, false, false, 0, 1, 1, 0, "vol", "surf", "restart"⟩

/-- A solver state whose accessors all return 1. -/
def solverOnes : CSolverFEA :=
  ⟨fun _ => 1, fun _ => 1, fun _ => 1, 1, 1, 1⟩

/-- A solver state whose residual accessors all return 0 (exactly-zero
upstream residuals). -/
def solverZeroRes : CSolverFEA :=
  ⟨fun _ => 0, fun _ => 0, fun _ => 0, 1, 1, 1⟩

/-- Iteration counters all at zero. -/
def itZero : IterCounters :=
  ⟨0, 0, 0⟩

/-- A geometry node whose coordinates are all 1. -/
def nodeGeoOnes : CPointGeo :=
  ⟨fun _ => 1⟩

/-- A structural node whose accessors all return 1. -/
def nodeStrucOnes : CVariableStruc :=
  ⟨fun _ => 1, fun _ => 1, fun _ => 1, fun _ => 1, 1⟩

/-- The output object of a linear, static, single-zone 2-D run. -/
def outLinear2D : CElasticityOutput :=
  CElasticityOutput.init cfgLinear2D 2 baseDefaults

/-- The output object of a nonlinear, static, single-zone 2-D run. -/
def outLarge2D : CElasticityOutput :=
  CElasticityOutput.init cfgLarge2D 2 baseDefaults

/-- C1 (counterexample): for a configuration with geometryMode equal to
LARGE_DEFORMATIONS, the history catalog built by SetHistoryOutputFields
does contain RMS_DISP_X, contradicting the claim that the large-deformation
catalog excludes the displacement residual fields. -/
theorem claim_C1_counterexample :
    cfgLarge2D.GetGeometricConditions = LARGE_DEFORMATIONS ∧
    "RMS_DISP_X" ∈ historyCatalogNames outLarge2D cfgLarge2D := by
  decide

/-- C1 (amended): the history catalog is one fixed FieldId list for every
output object and configuration — both residual groups (RMS_UTOL, RMS_RTOL,
RMS_ETOL and RMS_DISP_X, RMS_DISP_Y, RMS_DISP_Z) are registered
unconditionally, for both geometry modes and both spatial dimensions. -/
theorem claim_C1_history_catalog_unconditional (o : CElasticityOutput)
    (config : CConfig) :
    historyCatalogNames o config =
      ["TIME_ITER", "OUTER_ITER", "INNER_ITER", "PHYS_TIME", "LINSOL_ITER",
       "RMS_UTOL", "RMS_RTOL", "RMS_ETOL",
       "RMS_DISP_X", "RMS_DISP_Y", "RMS_DISP_Z",
       "BGS_DISP_X", "BGS_DISP_Y", "BGS_DISP_Z",
       "VMS", "LOAD_INCREMENT", "LOAD_RAMP"] :=
  rfl

/-- C2 (counterexample): for a 2-D configuration the history catalog built
by SetHistoryOutputFields contains the Z residual fields RMS_DISP_Z and
BGS_DISP_Z, contradicting the claim that no Z-axis field appears in either
catalog when spatialDim == 2. -/
theorem claim_C2_counterexample :
    outLinear2D.nDim = 2 ∧
    "RMS_DISP_Z" ∈ historyCatalogNames outLinear2D cfgLinear2D ∧
    "BGS_DISP_Z" ∈ historyCatalogNames outLinear2D cfgLinear2D := by
  decide

/-- C2 (amended): for spatialDim == 2 no Z-axis field appears in the volume
catalog, but the history catalog still contains the Z residual fields
RMS_DISP_Z and BGS_DISP_Z (history registration is unconditional). -/
theorem claim_C2_no_z_in_volume_catalog (o : CElasticityOutput)
    (config : CConfig) (h : o.nDim = 2) :
    "COORD-Z" ∉ volumeCatalogNames o config ∧
    "DISPLACEMENT-Z" ∉ volumeCatalogNames o config ∧
    "VELOCITY-Z" ∉ volumeCatalogNames o config ∧
    "ACCELERATION-Z" ∉ volumeCatalogNames o config ∧
    "STRESS-ZZ" ∉ volumeCatalogNames o config ∧
    "STRESS-XZ" ∉ volumeCatalogNames o config ∧
    "STRESS-YZ" ∉ volumeCatalogNames o config ∧
    "RMS_DISP_Z" ∈ historyCatalogNames o config ∧
    "BGS_DISP_Z" ∈ historyCatalogNames o config := by
  simp [volumeCatalogNames, SetVolumeOutputFields, AddVolumeOutput, h,
        historyCatalogNames, SetHistoryOutputFields, AddHistoryOutput]

/-- C2 (witness): the amended statement instantiated at the linear 2-D
output object. -/
theorem claim_C2_witness :
    outLinear2D.nDim = 2 ∧
    "COORD-Z" ∉ volumeCatalogNames outLinear2D cfgLinear2D := by
  have h := claim_C2_no_z_in_volume_catalog outLinear2D cfgLinear2D (by decide)
  exact ⟨by decide, h.1⟩

/-- C3 (counterexample): for a static configuration (dynamic flag false)
the volume catalog built by SetVolumeOutputFields contains VELOCITY-X and
ACCELERATION-X, contradicting the claim that velocity and acceleration
fields are absent under timeMode == STATIC. -/
theorem claim_C3_counterexample :
    outLinear2D.dynamic = false ∧
    "VELOCITY-X" ∈ volumeCatalogNames outLinear2D cfgLinear2D ∧
    "ACCELERATION-X" ∈ volumeCatalogNames outLinear2D cfgLinear2D := by
  decide

/-- C3 (amended): the in-plane velocity and acceleration fields are
registered in the volume catalog for every configuration, static included;
the Z components are registered iff nDim == 3.  Only the loader
(LoadVolumeData) is gated on the dynamic flag. -/
theorem claim_C3_velocity_always_registered (o : CElasticityOutput)
    (config : CConfig) :
    "VELOCITY-X" ∈ volumeCatalogNames o config ∧
    "VELOCITY-Y" ∈ volumeCatalogNames o config ∧
    "ACCELERATION-X" ∈ volumeCatalogNames o config ∧
    "ACCELERATION-Y" ∈ volumeCatalogNames o config ∧
    (("VELOCITY-Z" ∈ volumeCatalogNames o config) ↔ o.nDim = 3) ∧
    (("ACCELERATION-Z" ∈ volumeCatalogNames o config) ↔ o.nDim = 3) := by
  by_cases h3 : o.nDim = 3 <;>
    simp [volumeCatalogNames, SetVolumeOutputFields, AddVolumeOutput, h3]

/-- C4 (confirmed): for every configuration, the header decision computed
by WriteScreen_Header on the constructed output object equals the decision
procedure stated by the spec: nonlinear (geometryMode == LARGE_DEFORMATIONS)
gives innerIter == 0, otherwise extIter mod (writeFrequency * 40) == 0, and
under multizone the result is AND-ed with the write-zone-convergence opt-in
flag. -/
theorem claim_C4_header_decision (config : CConfig) (geometry_nDim : Nat)
    (base : COutputState) :
    WriteScreen_Header (CElasticityOutput.init config geometry_nDim base) config =
      shouldEmitHeaderSpec (config.GetGeometricConditions == LARGE_DEFORMATIONS)
        config.GetMultizone_Problem config.GetWrt_ZoneConv
        config.GetIntIter config.GetExtIter config.GetWrt_Con_Freq :=
  rfl

/-- C5 (counterexample): with multizone == true and the opt-in flag false,
WriteHistoryFile_Output still returns true — the history-file row is
emitted, contradicting the claim that both row decisions are AND-ed with
the opt-in flag so that no data row is emitted. -/
theorem claim_C5_counterexample :
    cfgMultizoneNoOptIn.GetMultizone_Problem = true ∧
    cfgMultizoneNoOptIn.GetWrt_ZoneConv = false ∧
    WriteHistoryFile_Output
      (CElasticityOutput.init cfgMultizoneNoOptIn 2 baseDefaultsMZ)
      cfgMultizoneNoOptIn = true := by
  decide

/-- C5 (amended): the screen-row decision is true by default and AND-ed
with the opt-in flag when multizone == true, but the history-file-row
decision is unconditionally true — it is not gated on multizone at all. -/
theorem claim_C5_row_decisions (o : CElasticityOutput) (config : CConfig) :
    WriteHistoryFile_Output o config = true ∧
    WriteScreen_Output o config =
      (!config.GetMultizone_Problem || config.GetWrt_ZoneConv) := by
  refine ⟨rfl, ?_⟩
  cases hm : config.GetMultizone_Problem <;> simp [WriteScreen_Output, hm]

/-- C7 (counterexample): constructing with a geometry mode that is neither
SMALL_DEFORMATIONS nor LARGE_DEFORMATIONS completes without any error
report: both analysis flags are false, nVar_FEM is left unset, and the
history catalog is still produced (nonempty) — contradicting the claim
that this is reported at construction time and no catalog is produced. -/
theorem claim_C7_counterexample :
    cfgBadMode.GetGeometricConditions ≠ SMALL_DEFORMATIONS ∧
    cfgBadMode.GetGeometricConditions ≠ LARGE_DEFORMATIONS ∧
    (CElasticityOutput.init cfgBadMode 2 baseDefaults).linear_analysis = false ∧
    (CElasticityOutput.init cfgBadMode 2 baseDefaults).nonlinear_analysis = false ∧
    (CElasticityOutput.init cfgBadMode 2 baseDefaults).nVar_FEM = none ∧
    historyCatalogNames (CElasticityOutput.init cfgBadMode 2 baseDefaults)
      cfgBadMode ≠ [] := by
  decide

/-- C7 (amended): the constructor performs no validation of the geometry
mode: for any unrecognized value it completes silently with both analysis
flags false and nVar_FEM uninitialized, and the (unconditional) history
catalog is still produced. -/
theorem claim_C7_no_validation (config : CConfig) (geometry_nDim : Nat)
    (base : COutputState)
    (h1 : config.GetGeometricConditions ≠ SMALL_DEFORMATIONS)
    (h2 : config.GetGeometricConditions ≠ LARGE_DEFORMATIONS) :
    (CElasticityOutput.init config geometry_nDim base).linear_analysis = false ∧
    (CElasticityOutput.init config geometry_nDim base).nonlinear_analysis = false ∧
    (CElasticityOutput.init config geometry_nDim base).nVar_FEM = none ∧
    historyCatalogNames (CElasticityOutput.init config geometry_nDim base)
      config ≠ [] := by
  simp [CElasticityOutput.init, h1, h2, historyCatalogNames,
        SetHistoryOutputFields, AddHistoryOutput]

/-- C7 (witness): the amended statement instantiated at the concrete
unrecognized-mode configuration. -/
theorem claim_C7_witness :
    (CElasticityOutput.init cfgBadMode 3 baseDefaults).nVar_FEM = none := by
  have h := claim_C7_no_validation cfgBadMode 3 baseDefaults (by decide) (by decide)
  exact h.2.2.1

/-- C6 (counterexample): for a linear 2-D single-zone run, RMS_UTOL is
registered in the history catalog but LoadHistoryData writes it zero times,
contradicting the claim that every registered FieldId is written exactly
once before the record reaches the sink. -/
theorem claim_C6_counterexample :
    "RMS_UTOL" ∈ historyCatalogNames outLinear2D cfgLinear2D ∧
    (historyWrittenNames outLinear2D itZero solverOnes).count "RMS_UTOL" = 0 := by
  decide

/-- C6 (amended): LoadHistoryData writes each FieldId it touches exactly
once (the written-name list has no duplicates) and every written FieldId is
registered in the history catalog, but the converse fails: the catalog
always contains FieldIds the loader never writes — PHYS_TIME always, and
the inactive residual group (for a linear run, RMS_UTOL). -/
theorem claim_C6_written_subset_of_catalog (o : CElasticityOutput)
    (config : CConfig) (it : IterCounters) (s : CSolverFEA) :
    (historyWrittenNames o it s).Nodup ∧
    historyWrittenNames o it s ⊆ historyCatalogNames o config ∧
    "PHYS_TIME" ∈ historyCatalogNames o config ∧
    "PHYS_TIME" ∉ historyWrittenNames o it s ∧
    (o.linear_analysis = true → "RMS_UTOL" ∉ historyWrittenNames o it s) := by
  cases hl : o.linear_analysis <;> cases hn : o.nonlinear_analysis <;>
    cases hm : o.multizone <;> by_cases h3 : o.nDim = 3 <;>
    simp [historyWrittenNames, LoadHistoryData, historyCatalogNames,
          SetHistoryOutputFields, AddHistoryOutput, List.cons_subset,
          hl, hn, hm, h3]

/-- C6 (witness): the amended statement instantiated at the linear 2-D
single-zone run. -/
theorem claim_C6_witness :
    "RMS_UTOL" ∉ historyWrittenNames outLinear2D itZero solverOnes := by
  have h := claim_C6_written_subset_of_catalog outLinear2D cfgLinear2D itZero solverOnes
  exact h.2.2.2.2 rfl

/-- C8 (confirmed): every residual field written by LoadHistoryData stores
exactly the symbolic base-10 logarithm of the corresponding upstream RMS
accessor value, for every solver state — including one whose residuals are
exactly zero — with no guard, clamping, or error path (the loader is a
total function into a record, never a failure). -/
theorem claim_C8_log_transform (o : CElasticityOutput) (it : IterCounters)
    (s : CSolverFEA) :
    (o.linear_analysis = true →
      (LoadHistoryData o it s).lookup "RMS_DISP_X" =
        some (.log10 (s.GetRes_RMS 0)) ∧
      (LoadHistoryData o it s).lookup "RMS_DISP_Y" =
        some (.log10 (s.GetRes_RMS 1)) ∧
      (o.nDim = 3 →
        (LoadHistoryData o it s).lookup "RMS_DISP_Z" =
          some (.log10 (s.GetRes_RMS 2)))) ∧
    (o.linear_analysis = false → o.nonlinear_analysis = true →
      (LoadHistoryData o it s).lookup "RMS_UTOL" =
        some (.log10 (s.GetRes_FEM 0)) ∧
      (LoadHistoryData o it s).lookup "RMS_RTOL" =
        some (.log10 (s.GetRes_FEM 1)) ∧
      (o.nDim = 3 →
        (LoadHistoryData o it s).lookup "RMS_ETOL" =
          some (.log10 (s.GetRes_FEM 2)))) ∧
    (o.multizone = true →
      (LoadHistoryData o it s).lookup "BGS_DISP_X" =
        some (.log10 (s.GetRes_BGS 0)) ∧
      (LoadHistoryData o it s).lookup "BGS_DISP_Y" =
        some (.log10 (s.GetRes_BGS 1)) ∧
      (o.nDim = 3 →
        (LoadHistoryData o it s).lookup "BGS_DISP_Z" =
          some (.log10 (s.GetRes_BGS 2)))) := by
  cases hl : o.linear_analysis <;> cases hn : o.nonlinear_analysis <;>
    cases hm : o.multizone <;> by_cases h3 : o.nDim = 3 <;>
    simp [LoadHistoryData, List.lookup, hl, hn, hm, h3]

/-- C8 (witness): for the linear 2-D run with all upstream residuals equal
to exactly zero, the stored RMS_DISP_X value is still the unguarded base-10
logarithm of zero. -/
theorem claim_C8_witness :
    (LoadHistoryData outLinear2D itZero solverZeroRes).lookup "RMS_DISP_X" =
      some (HistoryValue.log10 0) := by
  have h := claim_C8_log_transform outLinear2D itZero solverZeroRes
  exact (h.1 rfl).1

/-- C9 (confirmed): the loaders write Z-axis components iff nDim == 3 (the
active mode's third residual in LoadHistoryData; coordinate, displacement
and stress Z components in LoadVolumeData), and write velocity and
acceleration components only under the dynamic flag (their Z components
requiring both). -/
theorem claim_C9_loader_gating (o : CElasticityOutput) (it : IterCounters)
    (s : CSolverFEA) (Node_Struc : CVariableStruc) (Node_Geo : CPointGeo)
    (iPoint : Nat) :
    (o.linear_analysis = true →
      (("RMS_DISP_Z" ∈ historyWrittenNames o it s) ↔ o.nDim = 3)) ∧
    (o.linear_analysis = false → o.nonlinear_analysis = true →
      (("RMS_ETOL" ∈ historyWrittenNames o it s) ↔ o.nDim = 3)) ∧
    (o.multizone = true →
      (("BGS_DISP_Z" ∈ historyWrittenNames o it s) ↔ o.nDim = 3)) ∧
    (("COORD-Z" ∈ volumeWrittenNames o Node_Struc Node_Geo iPoint) ↔
      o.nDim = 3) ∧
    (("DISPLACEMENT-Z" ∈ volumeWrittenNames o Node_Struc Node_Geo iPoint) ↔
      o.nDim = 3) ∧
    (("STRESS-ZZ" ∈ volumeWrittenNames o Node_Struc Node_Geo iPoint) ↔
      o.nDim = 3) ∧
    (("STRESS-XZ" ∈ volumeWrittenNames o Node_Struc Node_Geo iPoint) ↔
      o.nDim = 3) ∧
    (("STRESS-YZ" ∈ volumeWrittenNames o Node_Struc Node_Geo iPoint) ↔
      o.nDim = 3) ∧
    (("VELOCITY-X" ∈ volumeWrittenNames o Node_Struc Node_Geo iPoint) ↔
      o.dynamic = true) ∧
    (("VELOCITY-Y" ∈ volumeWrittenNames o Node_Struc Node_Geo iPoint) ↔
      o.dynamic = true) ∧
    (("ACCELERATION-X" ∈ volumeWrittenNames o Node_Struc Node_Geo iPoint) ↔
      o.dynamic = true) ∧
    (("ACCELERATION-Y" ∈ volumeWrittenNames o Node_Struc Node_Geo iPoint) ↔
      o.dynamic = true) ∧
    (("VELOCITY-Z" ∈ volumeWrittenNames o Node_Struc Node_Geo iPoint) ↔
      (o.dynamic = true ∧ o.nDim = 3)) ∧
    (("ACCELERATION-Z" ∈ volumeWrittenNames o Node_Struc Node_Geo iPoint) ↔
      (o.dynamic = true ∧ o.nDim = 3)) := by
  cases hl : o.linear_analysis <;> cases hn : o.nonlinear_analysis <;>
    cases hm : o.multizone <;> cases hd : o.dynamic <;>
    by_cases h3 : o.nDim = 3 <;>
    simp [historyWrittenNames, LoadHistoryData, volumeWrittenNames,
          LoadVolumeData, hl, hn, hm, hd, h3]

/-- C9 (witness): in the linear static 2-D run, the loaders write neither
the Z coordinate nor the X velocity. -/
theorem claim_C9_witness :
    "COORD-Z" ∉ volumeWrittenNames outLinear2D nodeStrucOnes nodeGeoOnes 0 ∧
    "VELOCITY-X" ∉ volumeWrittenNames outLinear2D nodeStrucOnes nodeGeoOnes 0 := by
  have h := claim_C9_loader_gating outLinear2D itZero solverOnes
    nodeStrucOnes nodeGeoOnes 0
  obtain ⟨-, -, -, hcz, -, -, -, -, hvx, -⟩ := h
  constructor
  · intro hmem
    exact absurd (hcz.mp hmem) (by decide)
  · intro hmem
    exact absurd (hvx.mp hmem) (by decide)

/-- C10 (confirmed): when no convergence field is configured at
construction, the constructor sets Conv_Field to RMS_DISP_X for every
configuration, and in a LARGE_DEFORMATIONS run LoadHistoryData never
writes RMS_DISP_X. -/
theorem claim_C10_default_conv_field (config : CConfig) (geometry_nDim : Nat)
    (base : COutputState) (it : IterCounters) (s : CSolverFEA)
    (hconv : base.Conv_Field = "") :
    (CElasticityOutput.init config geometry_nDim base).Conv_Field =
      "RMS_DISP_X" ∧
    (config.GetGeometricConditions = LARGE_DEFORMATIONS →
      "RMS_DISP_X" ∉
        historyWrittenNames (CElasticityOutput.init config geometry_nDim base)
          it s) := by
  refine ⟨by simp [CElasticityOutput.init, hconv], ?_⟩
  intro hg
  cases hm : base.multizone <;> by_cases h3 : geometry_nDim = 3 <;>
    simp [historyWrittenNames, LoadHistoryData, CElasticityOutput.init,
          hg, hm, h3, SMALL_DEFORMATIONS, LARGE_DEFORMATIONS]

/-- C10 (witness): the statement instantiated at the nonlinear 2-D run with
the default (empty) convergence field. -/
theorem claim_C10_witness :
    (CElasticityOutput.init cfgLarge2D 2 baseDefaults).Conv_Field =
      "RMS_DISP_X" ∧
    "RMS_DISP_X" ∉
      historyWrittenNames (CElasticityOutput.init cfgLarge2D 2 baseDefaults)
        itZero solverOnes := by
  have h := claim_C10_default_conv_field cfgLarge2D 2 baseDefaults
    itZero solverOnes rfl
  exact ⟨h.1, h.2 rfl⟩

end SU2Elasticity
